import Mathlib

/-!
Shallow embedding of the N1-Engine statistical analysis core.

The single-metric engine and the multi-metric coordinator are translated
from `pee/core/analysis.py` (`AnalysisEngine.calculate_baseline_vs_intervention`
and `AnalysisEngine.analyze_multiple_metrics`).  Dates are modelled as integer
day numbers (the code only ever compares timestamps and takes `.days`
differences at day granularity), metric values as rationals (`ℚ`), and a
missing (`NaN`) value as `Option.none` (the code's `dropna` removes those
rows).  The `strftime("%Y-%m-%d")` formatting of window boundary dates is
modelled by reporting the day number itself.  Floating-point square roots
(`np.sqrt`, `pandas.std`) are modelled over `ℝ` by view functions on the
otherwise rational result record: the record stores the (rational) sample
variances and the radicand of the pooled standard deviation, and `Real.sqrt`
views recover the reported `std` / `pooled_std` / `cohens_d` values.

The external SciPy routines `stats.ttest_ind` and `stats.mannwhitneyu` are not
part of this repository; they are modelled as function parameters returning
`Option (ℚ × ℚ)`, where `none` models the call raising an exception (which the
Python code catches, turning it into a warning and `NaN` fields).

Configuration constants are taken from `main/config.py` (present in the tree;
`pee/config.py` imports the same four names and the spec gives the same
defaults 7, 7, 3, 3).
-/

namespace N1

/-- `MIN_BASELINE_DAYS` from `main/config.py`. -/
def MIN_BASELINE_DAYS : ℤ := 7

/-- `MIN_INTERVENTION_DAYS` from `main/config.py`. -/
def MIN_INTERVENTION_DAYS : ℤ := 7

/-- `MIN_DATA_POINTS` from `main/config.py`. -/
def MIN_DATA_POINTS : ℕ := 3

/-- `MAX_SAFE_METRICS` from `main/config.py`. -/
def MAX_SAFE_METRICS : ℕ := 3

/-- One row of the input DataFrame: a date (day number), a value (`none`
models `NaN`, removed by `dropna(subset=['value'])`), and the content of the
`metric_name` column (meaningful only when the frame has that column). -/
structure Row where
  date : ℤ
  value : Option ℚ
  metric_name : String
deriving DecidableEq, Repr

/-- The input DataFrame.  The Boolean flags model which columns are present:
`metrics['date']` (line 47), `dropna(subset=['value'])` (line 67) and the
optional `metric_name` column (line 52) each raise a `KeyError` in Python when
the corresponding column is absent. -/
structure Frame where
  rows : List Row
  hasDateCol : Bool
  hasValueCol : Bool
  hasMetricCol : Bool
deriving DecidableEq, Repr

/-- Mean of a list of values (`pandas.Series.mean`); division by zero on the
empty list yields `0` in `ℚ` (that case is unreachable behind the
`MIN_DATA_POINTS` gate). -/
def mean (xs : List ℚ) : ℚ := xs.sum / (xs.length : ℚ)

/-- Sample variance with `ddof = 1`, i.e. the square of `pandas`'
`Series.std(ddof=1)`.  For fewer than two points pandas returns `NaN`, which
the engine's output mapping turns into `0.0`; behind the `MIN_DATA_POINTS`
gate every group has at least 3 values, so that branch is unreachable and is
modelled as `0`. -/
def sampleVar (xs : List ℚ) : ℚ :=
  if xs.length < 2 then 0
  else ((xs.map (fun x => (x - mean xs) ^ 2)).sum) / ((xs.length : ℚ) - 1)

/-- The baseline window rows (line 64-67): `baseline_start ≤ date < start_date`
with `NaN` values dropped. -/
def baselineRows (m : Frame) (start_date baseline_days : ℤ) : List Row :=
  m.rows.filter fun r =>
    decide (start_date - baseline_days ≤ r.date) && decide (r.date < start_date)
      && r.value.isSome

/-- The intervention window rows (line 69-72): `start_date ≤ date <
intervention_end` with `NaN` values dropped. -/
def interventionRows (m : Frame) (start_date intervention_days : ℤ) : List Row :=
  m.rows.filter fun r =>
    decide (start_date ≤ r.date) && decide (r.date < start_date + intervention_days)
      && r.value.isSome

/-- The `value` column of a window (`baseline_df['value']`). -/
def rowValues (l : List Row) : List ℚ := l.filterMap Row.value

/-- Largest date of a window (`df['date'].max()`); `0` on the empty list
(the code guards with `df.empty`). -/
def maxDateOf (l : List Row) : ℤ := ((l.map Row.date).max?).getD 0

/-- Smallest date of a window (`df['date'].min()`). -/
def minDateOf (l : List Row) : ℤ := ((l.map Row.date).min?).getD 0

/-- Calendar span of a window: `(max - min).days + 1` (lines 91 and 98). -/
def spanOf (l : List Row) : ℤ := (maxDateOf l - minDateOf l) + 1

/-- Number of distinct values in the `metric_name` column
(`metrics['metric_name'].unique()`, line 53). -/
def uniqueMetricCount (m : Frame) : ℕ := ((m.rows.map Row.metric_name).dedup).length

/-- The warnings the engine can append, one constructor per message template
of `calculate_baseline_vs_intervention` and `analyze_multiple_metrics`; the
payloads are the values interpolated into the Python f-strings. -/
inductive Warning where
  | insufficientBaselineDuration (span : ℤ)
  | insufficientInterventionDuration (span : ℤ)
  | interventionShorterThanBaseline (intervention_days baseline_days : ℤ)
  | zeroVariance
  | tTestFailed
  | mannWhitneyFailed
  | multipleComparisonRisk (metricCount : ℕ)
deriving DecidableEq, Repr

/-- The exceptions `calculate_baseline_vs_intervention` can raise: the
`ValueError` for mixed metric identities (line 57, carrying the number of
distinct identities found) and Python `KeyError`s for a missing required
column (lines 47 and 67). -/
inductive EngineError where
  | mixedMetrics (found : ℕ)
  | missingColumn (name : String)
deriving DecidableEq, Repr

/-- `{statistic, p_value}` of one hypothesis test; `none` models the engine's
mapping of `None`/`NaN` to JSON `null` (lines 187-194). -/
structure TestOut where
  statistic : Option ℚ
  p_value : Option ℚ
deriving DecidableEq, Repr

/-- One reported window (lines 170-183).  `end_` is the reported (inclusive)
end date; `var` is the square of the reported `std` (see `WindowOut.std`). -/
structure WindowOut where
  start : ℤ
  end_ : ℤ
  count : ℕ
  mean : ℚ
  var : ℚ
deriving DecidableEq, Repr

/-- The `analysis` sub-dictionary (lines 184-195).  `pooled_sq` is the square
of the engine's `pooled_std` (see `Success.pooled_std`, `Success.cohens_d`). -/
structure AnalysisOut where
  mean_difference : ℚ
  pooled_sq : ℚ
  t_test : TestOut
  mann_whitney_u : TestOut
deriving DecidableEq, Repr

/-- The full (non-error) result shape (lines 169-197). -/
structure Success where
  baseline_window : WindowOut
  intervention_window : WindowOut
  analysis : AnalysisOut
  warnings : List Warning
deriving DecidableEq, Repr

/-- The two mutually exclusive result shapes: the insufficient-data error
shape `{error, baseline_count, intervention_count}` (lines 80-84; the `error`
message is the fixed string built from `MIN_DATA_POINTS`) or the full result
shape. -/
inductive Outcome where
  | insufficient (baseline_count intervention_count : ℕ)
  | ok (s : Success)
deriving DecidableEq, Repr

/-- The external SciPy two-sample tests (`stats.ttest_ind` /
`stats.mannwhitneyu`): given the intervention and baseline value lists they
either return `(statistic, p_value)` or raise (`none`). -/
def ExtTest := List ℚ → List ℚ → Option (ℚ × ℚ)

/-- Baseline span warning block (lines 90-95): skipped when the window is
empty, emitted when the span is below `MIN_BASELINE_DAYS`. -/
def baselineSpanWarning (bdf : List Row) : List Warning :=
  if bdf.isEmpty = false ∧ spanOf bdf < MIN_BASELINE_DAYS then
    [Warning.insufficientBaselineDuration (spanOf bdf)]
  else []

/-- Intervention span warning block (lines 97-102). -/
def interventionSpanWarning (idf : List Row) : List Warning :=
  if idf.isEmpty = false ∧ spanOf idf < MIN_INTERVENTION_DAYS then
    [Warning.insufficientInterventionDuration (spanOf idf)]
  else []

/-- Reduced-power warning (lines 104-107). -/
def powerWarning (baseline_days intervention_days : ℤ) : List Warning :=
  if intervention_days < baseline_days then
    [Warning.interventionShorterThanBaseline intervention_days baseline_days]
  else []

/-- Zero-variance warning (lines 117-123).  The code compares the
`NaN`-guarded standard deviations with `0`; behind the gate each group has at
least 3 points so `std` is `√var` and `std == 0` iff `var = 0`. -/
def zeroVarianceWarning (vb vi : ℚ) : List Warning :=
  if vb = 0 ∧ vi = 0 then [Warning.zeroVariance] else []

/-- The Welch t-test block (lines 143-157): when both groups have zero
variance the numerical test is skipped — `(0.0, 1.0)` for equal means and
`(NaN, NaN)` (reported as `null`) otherwise; else the external test runs, and
a raising call is caught into a warning plus `(NaN, NaN)`. -/
def tTestResult (vb vi mean_diff : ℚ) (ext : Option (ℚ × ℚ)) :
    TestOut × List Warning :=
  if vb = 0 ∧ vi = 0 then
    if mean_diff = 0 then (⟨some 0, some 1⟩, []) else (⟨none, none⟩, [])
  else
    match ext with
    | some sp => (⟨some sp.1, some sp.2⟩, [])
    | none => (⟨none, none⟩, [Warning.tTestFailed])

/-- The Mann-Whitney U block (lines 159-167). -/
def mwuResult (ext : Option (ℚ × ℚ)) : TestOut × List Warning :=
  match ext with
  | some sp => (⟨some sp.1, some sp.2⟩, [])
  | none => (⟨none, none⟩, [Warning.mannWhitneyFailed])

/-- The full result record assembled by lines 86-197 (reached only past the
`MIN_DATA_POINTS` gate).  `tt` and `mwu` are the external SciPy tests, called
with the intervention data first as in the source. -/
def buildSuccess (m : Frame) (start_date baseline_days intervention_days : ℤ)
    (tt mwu : ExtTest) : Success :=
  let bdf := baselineRows m start_date baseline_days
  let idf := interventionRows m start_date intervention_days
  let bvals := rowValues bdf
  let ivals := rowValues idf
  let mb := mean bvals
  let mi := mean ivals
  let mean_diff := mi - mb
  let vb := sampleVar bvals
  let vi := sampleVar ivals
  let n1 := bvals.length
  let n2 := ivals.length
  let psq : ℚ :=
    if 0 < (n1 : ℤ) + (n2 : ℤ) - 2 then
      (((n1 : ℚ) - 1) * vb + ((n2 : ℚ) - 1) * vi) / (((n1 : ℚ) + (n2 : ℚ)) - 2)
    else 0
  let t := tTestResult vb vi mean_diff (tt ivals bvals)
  let u := mwuResult (mwu ivals bvals)
  { baseline_window := ⟨start_date - baseline_days, start_date - 1, n1, mb, vb⟩
    intervention_window := ⟨start_date, start_date + intervention_days - 1, n2, mi, vi⟩
    analysis := ⟨mean_diff, psq, t.1, u.1⟩
    warnings :=
      baselineSpanWarning bdf ++ interventionSpanWarning idf
        ++ powerWarning baseline_days intervention_days
        ++ zeroVarianceWarning vb vi ++ t.2 ++ u.2 }

/-- `AnalysisEngine.calculate_baseline_vs_intervention`
(`pee/core/analysis.py`, lines 25-197), in source order: the `date` column
access (line 47), the mixed-metric `ValueError` (lines 51-57), the window
construction with `dropna(subset=['value'])` (lines 59-75, raising when the
`value` column is absent), the `MIN_DATA_POINTS` gate (lines 77-84), and the
full computation. -/
def calculate_baseline_vs_intervention (m : Frame)
    (start_date baseline_days intervention_days : ℤ) (tt mwu : ExtTest) :
    Except EngineError Outcome :=
  if m.hasDateCol = false then .error (.missingColumn "date")
  else if m.hasMetricCol = true ∧ 1 < uniqueMetricCount m then
    .error (.mixedMetrics (uniqueMetricCount m))
  else if m.hasValueCol = false then .error (.missingColumn "value")
  else
    let bc := (rowValues (baselineRows m start_date baseline_days)).length
    let ic := (rowValues (interventionRows m start_date intervention_days)).length
    if bc < MIN_DATA_POINTS ∨ ic < MIN_DATA_POINTS then
      .ok (.insufficient bc ic)
    else
      .ok (.ok (buildSuccess m start_date baseline_days intervention_days tt mwu))

/-- Projects the full-analysis shape out of an engine call, `none` on an
exception or on the insufficient-data shape. -/
def getOk (r : Except EngineError Outcome) : Option Success :=
  match r with
  | .ok (.ok s) => some s
  | _ => none

/-- The reported `std` of a window (lines 175 and 182): the square root of the
sample variance (pandas `std(ddof=1)`), with the `NaN → 0.0` guard modelled by
`sampleVar`'s zero convention. -/
noncomputable def WindowOut.std (w : WindowOut) : ℝ := Real.sqrt w.var

/-- The engine's `pooled_std` (lines 130-135): the square root of the stored
radicand. -/
noncomputable def Success.pooled_std (s : Success) : ℝ :=
  Real.sqrt s.analysis.pooled_sq

/-- The engine's `cohens_d` (line 137): `mean_diff / pooled_std` when
`pooled_std != 0`, else `0.0`. -/
noncomputable def Success.cohens_d (s : Success) : ℝ :=
  if s.pooled_std ≠ 0 then (s.analysis.mean_difference : ℝ) / s.pooled_std else 0

/-- One entry of the coordinator's `results` map: a per-metric outcome, or the
`{error: str(e)}` record for a metric whose analysis raised (line 230). -/
inductive Entry where
  | res (o : Outcome)
  | err (e : EngineError)
deriving DecidableEq, Repr

/-- `{results, global_warnings}` returned by `analyze_multiple_metrics`. -/
structure MultiResult where
  results : List (String × Entry)
  global_warnings : List Warning
deriving DecidableEq, Repr

/-- The coordinator's safeguard (lines 219-223): when the frame has a
`metric_name` column, restrict it to the rows of the metric being analyzed. -/
def filterToMetric (name : String) (df : Frame) : Frame :=
  if df.hasMetricCol then
    { df with rows := df.rows.filter fun r => r.metric_name == name }
  else df

/-- The body of the coordinator's per-metric `try`/`except` (lines 217-230). -/
def perMetricEntry (name : String) (df : Frame)
    (start_date baseline_days intervention_days : ℤ) (tt mwu : ExtTest) : Entry :=
  match calculate_baseline_vs_intervention (filterToMetric name df)
      start_date baseline_days intervention_days tt mwu with
  | .ok o => .res o
  | .error e => .err e

/-- `AnalysisEngine.analyze_multiple_metrics` (lines 199-235).  The metrics
map is a Python `dict`, modelled as an association list. -/
def analyze_multiple_metrics (metrics_map : List (String × Frame))
    (start_date baseline_days intervention_days : ℤ) (tt mwu : ExtTest) :
    MultiResult :=
  { results := metrics_map.map fun p =>
      (p.1, perMetricEntry p.1 p.2 start_date baseline_days intervention_days tt mwu)
    global_warnings :=
      if MAX_SAFE_METRICS < metrics_map.length then
        [Warning.multipleComparisonRisk metrics_map.length]
      else [] }

/-! ### The main-branch engine additions, modelled from the spec

`main/core/analysis.py` is not in the tree: only its callers
(`main/gui/analysis.py`, `main/core/reporting.py`) and its tests
(`tests/test_new_features.py`) are.  Its `bootstrap_ci` and `calculate_trend`
methods — and the attachment of their results to the single-metric result as
`analysis.bootstrap_ci` and per-window `trend` fields — are modelled here from
spec §4.3, §4.6 and §3, on top of the `pee` engine embedded above. -/

/-- Element `i` of a list, clamped to the last element (the interpolation
index of a percentile never leaves the sorted sample in `np.percentile`). -/
def nthC (l : List ℚ) (i : ℕ) : ℚ := l.getD (min i (l.length - 1)) 0

/-- Linear interpolation at fractional rank `h` into the sorted list `s`
(`np.percentile`'s default `linear` method). -/
def interpAt (s : List ℚ) (h : ℚ) : ℚ :=
  nthC s ((⌊h⌋).toNat)
    + (h - (((⌊h⌋).toNat : ℕ) : ℚ))
      * (nthC s ((⌊h⌋).toNat + 1) - nthC s ((⌊h⌋).toNat))

/-- Modelled from the spec: the `q`-th percentile (`np.percentile(xs, q)`,
linear interpolation between order statistics), used by the missing
`main/core/analysis.py` bootstrap on the resampled mean differences. -/
def percentile (q : ℚ) (xs : List ℚ) : ℚ :=
  if xs.isEmpty then 0
  else interpAt (xs.insertionSort (· ≤ ·)) (q * ((xs.length : ℚ) - 1) / 100)

/-- Modelled from the spec: one same-size resample drawn with replacement from
group `g`.  The seeded random number generator is abstracted as `rng`,
consulted at iteration `t`, group tag `j` and position `p`; reduction modulo
the group size keeps every draw inside the group. -/
def resampleWith (g : List ℚ) (rng : ℕ → ℕ → ℕ → ℕ) (t j : ℕ) : List ℚ :=
  (List.range g.length).map fun p => g.getD (rng t j p % g.length) 0

/-- Modelled from the spec: the bootstrap distribution of mean differences —
`n_bootstraps` iterations, each drawing independent same-size resamples from
the two groups and recomputing `mean(resample g2) - mean(resample g1)`. -/
def bootDiffs (g1 g2 : List ℚ) (n_bootstraps : ℕ) (rng : ℕ → ℕ → ℕ → ℕ) :
    List ℚ :=
  (List.range n_bootstraps).map fun t =>
    mean (resampleWith g2 rng t 1) - mean (resampleWith g1 rng t 0)

/-- `{lower, upper}` of the bootstrap confidence interval. -/
structure CIOut where
  lower : ℚ
  upper : ℚ
deriving DecidableEq, Repr

/-- Modelled from the spec (§4.6): `AnalysisEngine.bootstrap_ci` of the
missing `main/core/analysis.py` — absent when either group is empty, else the
2.5th/97.5th percentiles of the bootstrap mean-difference distribution. -/
def bootstrap_ci (g1 g2 : List ℚ) (n_bootstraps : ℕ)
    (rng : ℕ → ℕ → ℕ → ℕ) : Option CIOut :=
  if g1.length = 0 ∨ g2.length = 0 then none
  else
    some ⟨percentile (5 / 2) (bootDiffs g1 g2 n_bootstraps rng),
          percentile (195 / 2) (bootDiffs g1 g2 n_bootstraps rng)⟩

/-- `{slope, p_value}` of a window trend; `p_value = none` models the flat
degenerate case in which no significance test is attempted. -/
structure TrendOut where
  slope : ℚ
  p_value : Option ℚ
deriving DecidableEq, Repr

/-- `true` iff every element of the list equals the first one. -/
def allEqList {α : Type} [DecidableEq α] : List α → Bool
  | [] => true
  | a :: t => t.all fun x => x = a

/-- The ordinary least-squares slope of value against time for the given
`(date, value)` points: `Σ (x-x̄)(y-ȳ) / Σ (x-x̄)²` (invariant under the
choice of time origin, so the spec's "day offset from window start" needs no
separate offsetting). -/
def olsSlope (pts : List (ℤ × ℚ)) : ℚ :=
  let xs := pts.map fun p => ((p.1 : ℚ))
  let ys := pts.map Prod.snd
  let mx := mean xs
  let my := mean ys
  ((xs.zip ys).map fun p => (p.1 - mx) * (p.2 - my)).sum
    / ((xs.map fun x => (x - mx) ^ 2).sum)

/-- Modelled from the spec (§4.3): `AnalysisEngine.calculate_trend` of the
missing `main/core/analysis.py`.  Absent for fewer than 2 points or when all
points share one timestamp; for identical values the slope is 0 and no
significance test is attempted; otherwise the OLS slope together with the
two-sided slope significance computed by the external routine `sig`
(`scipy.stats.linregress`). -/
def calculate_trend (pts : List (ℤ × ℚ)) (sig : List (ℤ × ℚ) → ℚ) :
    Option TrendOut :=
  if pts.length < 2 ∨ allEqList (pts.map Prod.fst) = true then none
  else if allEqList (pts.map Prod.snd) = true then some ⟨0, none⟩
  else some ⟨olsSlope pts, some (sig pts)⟩

/-- The `(date, value)` pairs of a window's rows (all values are present past
the `dropna`). -/
def pairsOf (l : List Row) : List (ℤ × ℚ) := l.map fun r => (r.date, r.value.getD 0)

/-- The main-branch full result shape (spec §3): the `pee` result extended
with per-window `trend` fields and `analysis.bootstrap_ci`. -/
structure FullSuccess where
  core : Success
  baseline_trend : Option TrendOut
  intervention_trend : Option TrendOut
  bootstrap_ci : Option CIOut
deriving DecidableEq, Repr

/-- The two mutually exclusive shapes of the main-branch engine. -/
inductive FullOutcome where
  | insufficient (baseline_count intervention_count : ℕ)
  | ok (s : FullSuccess)
deriving DecidableEq, Repr

/-- Modelled from the spec: the missing `main/core/analysis.py` single-metric
entry point — the embedded `pee` engine plus, on success, the window trends
(§4.3) and the bootstrap confidence interval on the mean difference (§4.6). -/
def full_calculate (m : Frame) (start_date baseline_days intervention_days : ℤ)
    (tt mwu : ExtTest) (n_bootstraps : ℕ) (rng : ℕ → ℕ → ℕ → ℕ)
    (sig : List (ℤ × ℚ) → ℚ) : Except EngineError FullOutcome :=
  match calculate_baseline_vs_intervention m start_date baseline_days
      intervention_days tt mwu with
  | .error e => .error e
  | .ok (.insufficient bc ic) => .ok (.insufficient bc ic)
  | .ok (.ok s) =>
    let bdf := baselineRows m start_date baseline_days
    let idf := interventionRows m start_date intervention_days
    .ok (.ok
      { core := s
        baseline_trend := calculate_trend (pairsOf bdf) sig
        intervention_trend := calculate_trend (pairsOf idf) sig
        bootstrap_ci := bootstrap_ci (rowValues bdf) (rowValues idf) n_bootstraps rng })

/-- Projects the full-analysis shape out of a main-branch engine call. -/
def getFullOk (r : Except EngineError FullOutcome) : Option FullSuccess :=
  match r with
  | .ok (.ok s) => some s
  | _ => none

/-! ### Concrete fixtures shared by witnesses -/

/-- External test model that always raises. -/
def extNone : ExtTest := fun _ _ => none

/-- External test model returning a fixed `(statistic, p_value)`. -/
def extConst : ExtTest := fun _ _ => some (2, 1 / 20)

/-- A placeholder `Success` record for `Option.getD`. -/
def dummySuccess : Success :=
  ⟨⟨0, 0, 0, 0, 0⟩, ⟨0, 0, 0, 0, 0⟩, ⟨0, 0, ⟨none, none⟩, ⟨none, none⟩⟩, []⟩

/-- Two constant groups with unequal means: baseline value 5 on days
-3..-1, intervention value 8 on days 0..2. -/
def constFrame : Frame :=
  ⟨[⟨-3, some 5, "m"⟩, ⟨-2, some 5, "m"⟩, ⟨-1, some 5, "m"⟩,
    ⟨0, some 8, "m"⟩, ⟨1, some 8, "m"⟩, ⟨2, some 8, "m"⟩], true, true, false⟩

/-- Two constant groups with equal means (all values 5). -/
def equalFrame : Frame :=
  ⟨[⟨-3, some 5, "m"⟩, ⟨-2, some 5, "m"⟩, ⟨-1, some 5, "m"⟩,
    ⟨0, some 5, "m"⟩, ⟨1, some 5, "m"⟩, ⟨2, some 5, "m"⟩], true, true, false⟩

/-- The mixed-identity input of `test_mixed_metrics_error`. -/
def mixedFrame : Frame :=
  ⟨[⟨-1, some 10, "Metric A"⟩, ⟨0, some 20, "Metric B"⟩], true, true, true⟩

/-- Only two baseline points (below `MIN_DATA_POINTS`). -/
def smallFrame : Frame :=
  ⟨[⟨-2, some 5, "m"⟩, ⟨-1, some 6, "m"⟩,
    ⟨0, some 8, "m"⟩, ⟨1, some 9, "m"⟩, ⟨2, some 7, "m"⟩], true, true, false⟩

/-- Recognises the "Insufficient baseline duration" warning. -/
def isBaselineDurationWarning : Warning → Bool
  | .insufficientBaselineDuration _ => true
  | _ => false

/-- Recognises the "Insufficient intervention duration" warning. -/
def isInterventionDurationWarning : Warning → Bool
  | .insufficientInterventionDuration _ => true
  | _ => false

/-- Recognises the "Multiple Comparison Risk" warning. -/
def isRiskWarning : Warning → Bool
  | .multipleComparisonRisk _ => true
  | _ => false

/-- Baseline of 7 consecutive daily samples ending the day before the start
date, plus a 7-day intervention. -/
def daily7Frame : Frame :=
  ⟨[⟨-7, some 4, "m"⟩, ⟨-6, some 5, "m"⟩, ⟨-5, some 6, "m"⟩, ⟨-4, some 5, "m"⟩,
    ⟨-3, some 4, "m"⟩, ⟨-2, some 5, "m"⟩, ⟨-1, some 6, "m"⟩,
    ⟨0, some 8, "m"⟩, ⟨1, some 9, "m"⟩, ⟨2, some 8, "m"⟩, ⟨3, some 7, "m"⟩,
    ⟨4, some 8, "m"⟩, ⟨5, some 9, "m"⟩, ⟨6, some 8, "m"⟩], true, true, false⟩

/-- Only 5 consecutive daily baseline samples, same intervention. -/
def daily5Frame : Frame :=
  ⟨[⟨-5, some 6, "m"⟩, ⟨-4, some 5, "m"⟩,
    ⟨-3, some 4, "m"⟩, ⟨-2, some 5, "m"⟩, ⟨-1, some 6, "m"⟩,
    ⟨0, some 8, "m"⟩, ⟨1, some 9, "m"⟩, ⟨2, some 8, "m"⟩, ⟨3, some 7, "m"⟩,
    ⟨4, some 8, "m"⟩, ⟨5, some 9, "m"⟩, ⟨6, some 8, "m"⟩], true, true, false⟩

/-- A frame whose `value` column is missing (its analysis raises `KeyError`). -/
def noValueFrame : Frame := ⟨[⟨-1, some 10, "m"⟩, ⟨0, some 20, "m"⟩], true, false, false⟩

/-- The four-metric map of `test_multiple_comparison_warning`, with one
broken frame, and its three-metric prefix. -/
def fourMetricsMap : List (String × Frame) :=
  [("Metric_0", constFrame), ("Metric_1", noValueFrame),
    ("Metric_2", constFrame), ("Metric_3", equalFrame)]

/-- Three well-formed metrics. -/
def threeMetricsMap : List (String × Frame) :=
  [("Metric_0", constFrame), ("Metric_1", constFrame), ("Metric_2", equalFrame)]

/-- A placeholder `FullSuccess` record for `Option.getD`. -/
def dummyFullSuccess : FullSuccess := ⟨dummySuccess, none, none, none⟩

/-- A deterministic stand-in for the seeded random number generator. -/
def rngId : ℕ → ℕ → ℕ → ℕ := fun _ _ p => p

/-- A fixed stand-in for the external slope-significance routine. -/
def sigConst : List (ℤ × ℚ) → ℚ := fun _ => 1 / 2

/-! ### Helper lemmas -/

theorem some_getD_of_isSome {α : Type} {o : Option α} (d : α)
    (h : o.isSome = true) : o = some (o.getD d) := by
  cases o with
  | none => simp at h
  | some a => rfl

theorem sampleVar_nonneg (xs : List ℚ) : 0 ≤ sampleVar xs := by
  unfold sampleVar
  split
  · exact le_refl 0
  · rename_i hlen
    apply div_nonneg
    · apply List.sum_nonneg
      intro x hx
      obtain ⟨y, _, rfl⟩ := List.mem_map.mp hx
      positivity
    · have : 2 ≤ xs.length := not_lt.mp hlen
      have : (2 : ℚ) ≤ (xs.length : ℚ) := by exact_mod_cast this
      linarith

/-- Inverting a successful engine call: the result is `buildSuccess`, the
required columns are present, the input is not mixed, and both windows pass
the `MIN_DATA_POINTS` gate. -/
theorem getOk_calculate_inv {m : Frame} {sd b i : ℤ} {tt mwu : ExtTest}
    {s : Success}
    (h : getOk (calculate_baseline_vs_intervention m sd b i tt mwu) = some s) :
    s = buildSuccess m sd b i tt mwu ∧
      m.hasDateCol = true ∧ m.hasValueCol = true ∧
      ¬(m.hasMetricCol = true ∧ 1 < uniqueMetricCount m) ∧
      MIN_DATA_POINTS ≤ (rowValues (baselineRows m sd b)).length ∧
      MIN_DATA_POINTS ≤ (rowValues (interventionRows m sd i)).length := by
  unfold calculate_baseline_vs_intervention getOk at h
  split_ifs at h with h1 h2 h3
  by_cases hg : (rowValues (baselineRows m sd b)).length < MIN_DATA_POINTS ∨
      (rowValues (interventionRows m sd i)).length < MIN_DATA_POINTS
  · simp [hg] at h
  · simp [hg] at h
    push_neg at hg
    refine ⟨h.symm, by simpa using h1, by simpa using h3, h2, hg.1, hg.2⟩

theorem buildSuccess_baseline_window (m : Frame) (sd b i : ℤ) (tt mwu : ExtTest) :
    (buildSuccess m sd b i tt mwu).baseline_window =
      ⟨sd - b, sd - 1, (rowValues (baselineRows m sd b)).length,
        mean (rowValues (baselineRows m sd b)),
        sampleVar (rowValues (baselineRows m sd b))⟩ := rfl

theorem buildSuccess_intervention_window (m : Frame) (sd b i : ℤ)
    (tt mwu : ExtTest) :
    (buildSuccess m sd b i tt mwu).intervention_window =
      ⟨sd, sd + i - 1, (rowValues (interventionRows m sd i)).length,
        mean (rowValues (interventionRows m sd i)),
        sampleVar (rowValues (interventionRows m sd i))⟩ := rfl

theorem buildSuccess_mean_difference (m : Frame) (sd b i : ℤ) (tt mwu : ExtTest) :
    (buildSuccess m sd b i tt mwu).analysis.mean_difference =
      mean (rowValues (interventionRows m sd i))
        - mean (rowValues (baselineRows m sd b)) := rfl

theorem buildSuccess_t_test (m : Frame) (sd b i : ℤ) (tt mwu : ExtTest) :
    (buildSuccess m sd b i tt mwu).analysis.t_test =
      (tTestResult (sampleVar (rowValues (baselineRows m sd b)))
        (sampleVar (rowValues (interventionRows m sd i)))
        (mean (rowValues (interventionRows m sd i))
          - mean (rowValues (baselineRows m sd b)))
        (tt (rowValues (interventionRows m sd i))
          (rowValues (baselineRows m sd b)))).1 := rfl

theorem buildSuccess_pooled_sq (m : Frame) (sd b i : ℤ) (tt mwu : ExtTest) :
    (buildSuccess m sd b i tt mwu).analysis.pooled_sq =
      (if 0 < ((rowValues (baselineRows m sd b)).length : ℤ)
          + ((rowValues (interventionRows m sd i)).length : ℤ) - 2 then
        ((((rowValues (baselineRows m sd b)).length : ℚ) - 1)
            * sampleVar (rowValues (baselineRows m sd b))
          + (((rowValues (interventionRows m sd i)).length : ℚ) - 1)
            * sampleVar (rowValues (interventionRows m sd i)))
          / ((((rowValues (baselineRows m sd b)).length : ℚ)
            + ((rowValues (interventionRows m sd i)).length : ℚ)) - 2)
      else 0) := rfl

theorem buildSuccess_warnings (m : Frame) (sd b i : ℤ) (tt mwu : ExtTest) :
    (buildSuccess m sd b i tt mwu).warnings =
      baselineSpanWarning (baselineRows m sd b)
        ++ interventionSpanWarning (interventionRows m sd i)
        ++ powerWarning b i
        ++ zeroVarianceWarning (sampleVar (rowValues (baselineRows m sd b)))
            (sampleVar (rowValues (interventionRows m sd i)))
        ++ (tTestResult (sampleVar (rowValues (baselineRows m sd b)))
            (sampleVar (rowValues (interventionRows m sd i)))
            (mean (rowValues (interventionRows m sd i))
              - mean (rowValues (baselineRows m sd b)))
            (tt (rowValues (interventionRows m sd i))
              (rowValues (baselineRows m sd b)))).2
        ++ (mwuResult (mwu (rowValues (interventionRows m sd i))
            (rowValues (baselineRows m sd b)))).2 := rfl

/-! ### Claims -/

/-- C9: a series tagged with more than one distinct metric identity makes
`calculate_baseline_vs_intervention` raise the mixed-metric `ValueError` to
the caller (carrying the number of identities found), rather than silently
fixing or filtering the input. -/
theorem C9_mixed_metric_raises (m : Frame) (sd b i : ℤ) (tt mwu : ExtTest)
    (hd : m.hasDateCol = true) (hc : m.hasMetricCol = true)
    (hmix : 1 < uniqueMetricCount m) :
    calculate_baseline_vs_intervention m sd b i tt mwu =
      .error (.mixedMetrics (uniqueMetricCount m)) := by
  unfold calculate_baseline_vs_intervention
  rw [if_neg (by simp [hd]), if_pos ⟨hc, hmix⟩]

/-- C9 witness: the two-identity frame of `test_mixed_metrics_error` raises
the mixed-metric error. -/
theorem C9_mixed_metric_raises_witness :
    calculate_baseline_vs_intervention mixedFrame 0 1 1 extNone extNone =
      .error (.mixedMetrics 2) :=
  C9_mixed_metric_raises mixedFrame 0 1 1 extNone extNone (by decide) (by decide)
    (by decide)

/-- C5: past the structural checks, the engine returns the error shape with
the two post-`dropna` window counts exactly when either count is below
`MIN_DATA_POINTS`, and the full-analysis shape exactly otherwise; the two
shapes are mutually exclusive constructors of `Outcome`. -/
theorem C5_min_data_gate (m : Frame) (sd b i : ℤ) (tt mwu : ExtTest)
    (hd : m.hasDateCol = true) (hv : m.hasValueCol = true)
    (hnm : ¬(m.hasMetricCol = true ∧ 1 < uniqueMetricCount m)) :
    (calculate_baseline_vs_intervention m sd b i tt mwu =
        .ok (.insufficient (rowValues (baselineRows m sd b)).length
          (rowValues (interventionRows m sd i)).length) ↔
      ((rowValues (baselineRows m sd b)).length < MIN_DATA_POINTS ∨
        (rowValues (interventionRows m sd i)).length < MIN_DATA_POINTS)) ∧
    ((getOk (calculate_baseline_vs_intervention m sd b i tt mwu)).isSome = true ↔
      ¬((rowValues (baselineRows m sd b)).length < MIN_DATA_POINTS ∨
        (rowValues (interventionRows m sd i)).length < MIN_DATA_POINTS)) := by
  unfold calculate_baseline_vs_intervention getOk
  rw [if_neg (by simp [hd]), if_neg hnm, if_neg (by simp [hv])]
  by_cases hg : (rowValues (baselineRows m sd b)).length < MIN_DATA_POINTS ∨
      (rowValues (interventionRows m sd i)).length < MIN_DATA_POINTS <;>
    simp [hg]

/-- C5 witness: with only 2 baseline points the gate fires with the correct
counts, and with 3-point windows the full shape is produced instead. -/
theorem C5_min_data_gate_witness :
    calculate_baseline_vs_intervention smallFrame 0 3 3 extNone extNone =
      .ok (.insufficient 2 3) ∧
    (getOk (calculate_baseline_vs_intervention constFrame 0 3 3 extNone
      extNone)).isSome = true :=
  ⟨(C5_min_data_gate smallFrame 0 3 3 extNone extNone (by decide) (by decide)
      (by decide)).1.mpr (by decide),
    (C5_min_data_gate constFrame 0 3 3 extNone extNone (by decide) (by decide)
      (by decide)).2.mpr (by decide)⟩

/-- C3 counterexample: on a successful analysis (constant groups, 3 points
each, `start_date = 0`) the reported `baseline_window.end` is day `-1` while
`intervention_window.start` is day `0` — the claimed equality of the two
dates fails on every successful analysis, because the code reports an
inclusive end (`start_date - timedelta(days=1)`, line 172). -/
theorem C3_end_equals_start_counterexample :
    getOk (calculate_baseline_vs_intervention constFrame 0 3 3 extNone extNone)
        ≠ none ∧
    ((getOk (calculate_baseline_vs_intervention constFrame 0 3 3 extNone
        extNone)).getD dummySuccess).baseline_window.end_ = -1 ∧
    ((getOk (calculate_baseline_vs_intervention constFrame 0 3 3 extNone
        extNone)).getD dummySuccess).intervention_window.start = 0 := by
  decide

/-- C3 amended: on every successful analysis the reported
`baseline_window.end` is the day before `intervention_window.start` (both
ends are reported inclusive), and the two selection windows are disjoint (the
baseline filter uses `date < start_date` exclusively while the intervention
filter starts at `start_date`). -/
theorem C3_window_adjacency (m : Frame) (sd b i : ℤ) (tt mwu : ExtTest)
    (s : Success)
    (h : getOk (calculate_baseline_vs_intervention m sd b i tt mwu) = some s) :
    s.baseline_window.end_ = s.intervention_window.start - 1 ∧
    ∀ r : Row, ¬(r ∈ baselineRows m sd b ∧ r ∈ interventionRows m sd i) := by
  obtain ⟨rfl, -⟩ := getOk_calculate_inv h
  refine ⟨by simp [buildSuccess_baseline_window, buildSuccess_intervention_window], ?_⟩
  rintro r ⟨hb, hi⟩
  unfold baselineRows at hb
  unfold interventionRows at hi
  simp only [List.mem_filter, Bool.and_eq_true, decide_eq_true_eq] at hb hi
  exact absurd hi.2.1.1 (not_le.mpr hb.2.1.2)

/-- C3 amended witness: the adjacency and disjointness at the concrete
successful analysis of `constFrame`. -/
theorem C3_window_adjacency_witness :
    ((getOk (calculate_baseline_vs_intervention constFrame 0 3 3 extNone
        extNone)).getD dummySuccess).baseline_window.end_ =
      ((getOk (calculate_baseline_vs_intervention constFrame 0 3 3 extNone
        extNone)).getD dummySuccess).intervention_window.start - 1 ∧
    ¬(Row.mk 0 (some 8) "m" ∈ baselineRows constFrame 0 3 ∧
      Row.mk 0 (some 8) "m" ∈ interventionRows constFrame 0 3) :=
  ⟨(C3_window_adjacency constFrame 0 3 3 extNone extNone _
      (some_getD_of_isSome dummySuccess (by decide))).1,
    (C3_window_adjacency constFrame 0 3 3 extNone extNone _
      (some_getD_of_isSome dummySuccess (by decide))).2 (Row.mk 0 (some 8) "m")⟩

/-- C4: when both groups have zero variance the numerical t-test is skipped
for every external test routine: equal means give `{statistic: 0.0,
p_value: 1.0}`, unequal means give two `null` fields. -/
theorem C4_zero_variance_ttest (m : Frame) (sd b i : ℤ) (tt mwu : ExtTest)
    (s : Success)
    (h : getOk (calculate_baseline_vs_intervention m sd b i tt mwu) = some s)
    (hvb : s.baseline_window.var = 0) (hvi : s.intervention_window.var = 0) :
    (s.intervention_window.mean = s.baseline_window.mean →
      s.analysis.t_test = ⟨some 0, some 1⟩) ∧
    (s.intervention_window.mean ≠ s.baseline_window.mean →
      s.analysis.t_test = ⟨none, none⟩) := by
  obtain ⟨rfl, -⟩ := getOk_calculate_inv h
  rw [buildSuccess_baseline_window] at hvb
  rw [buildSuccess_intervention_window] at hvi
  simp only [buildSuccess_baseline_window, buildSuccess_intervention_window,
    buildSuccess_t_test]
  unfold tTestResult
  rw [if_pos ⟨hvb, hvi⟩]
  constructor
  · intro hmeans
    rw [if_pos (sub_eq_zero.mpr hmeans)]
  · intro hmeans
    rw [if_neg (fun hz => hmeans (sub_eq_zero.mp hz))]

/-- C4 witness: the two degenerate branches at concrete constant groups —
equal means (all values 5) and unequal means (5 versus 8). -/
theorem C4_zero_variance_ttest_witness :
    (((getOk (calculate_baseline_vs_intervention equalFrame 0 3 3 extNone
        extNone)).getD dummySuccess).analysis.t_test = ⟨some 0, some 1⟩) ∧
    (((getOk (calculate_baseline_vs_intervention constFrame 0 3 3 extNone
        extNone)).getD dummySuccess).analysis.t_test = ⟨none, none⟩) :=
  ⟨(C4_zero_variance_ttest equalFrame 0 3 3 extNone extNone _
      (some_getD_of_isSome dummySuccess (by decide))
      (by norm_num [calculate_baseline_vs_intervention, getOk, buildSuccess,
        baselineRows, interventionRows, rowValues, mean, sampleVar, equalFrame,
        MIN_DATA_POINTS, List.filter_cons, List.filterMap_cons])
      (by norm_num [calculate_baseline_vs_intervention, getOk, buildSuccess,
        baselineRows, interventionRows, rowValues, mean, sampleVar, equalFrame,
        MIN_DATA_POINTS, List.filter_cons, List.filterMap_cons])).1
      (by norm_num [calculate_baseline_vs_intervention, getOk, buildSuccess,
        baselineRows, interventionRows, rowValues, mean, sampleVar, equalFrame,
        MIN_DATA_POINTS, List.filter_cons, List.filterMap_cons]),
    (C4_zero_variance_ttest constFrame 0 3 3 extNone extNone _
      (some_getD_of_isSome dummySuccess (by decide))
      (by norm_num [calculate_baseline_vs_intervention, getOk, buildSuccess,
        baselineRows, interventionRows, rowValues, mean, sampleVar, constFrame,
        MIN_DATA_POINTS, List.filter_cons, List.filterMap_cons])
      (by norm_num [calculate_baseline_vs_intervention, getOk, buildSuccess,
        baselineRows, interventionRows, rowValues, mean, sampleVar, constFrame,
        MIN_DATA_POINTS, List.filter_cons, List.filterMap_cons])).2
      (by norm_num [calculate_baseline_vs_intervention, getOk, buildSuccess,
        baselineRows, interventionRows, rowValues, mean, sampleVar, constFrame,
        MIN_DATA_POINTS, List.filter_cons, List.filterMap_cons])⟩

theorem baselineSpanWarning_any (l : List Row) :
    (baselineSpanWarning l).any isBaselineDurationWarning = true ↔
      (l.isEmpty = false ∧ spanOf l < MIN_BASELINE_DAYS) := by
  unfold baselineSpanWarning
  split_ifs with hcond
  · exact iff_of_true (by simp [isBaselineDurationWarning]) hcond
  · exact iff_of_false (by simp) hcond

theorem interventionSpanWarning_any (l : List Row) :
    (interventionSpanWarning l).any isInterventionDurationWarning = true ↔
      (l.isEmpty = false ∧ spanOf l < MIN_INTERVENTION_DAYS) := by
  unfold interventionSpanWarning
  split_ifs with hcond
  · exact iff_of_true (by simp [isInterventionDurationWarning]) hcond
  · exact iff_of_false (by simp) hcond

theorem baselineSpanWarning_cases (l : List Row) :
    baselineSpanWarning l = [] ∨
      baselineSpanWarning l = [Warning.insufficientBaselineDuration (spanOf l)] := by
  unfold baselineSpanWarning
  split_ifs <;> simp

theorem interventionSpanWarning_cases (l : List Row) :
    interventionSpanWarning l = [] ∨
      interventionSpanWarning l
        = [Warning.insufficientInterventionDuration (spanOf l)] := by
  unfold interventionSpanWarning
  split_ifs <;> simp

theorem powerWarning_cases (b i : ℤ) :
    powerWarning b i = [] ∨
      powerWarning b i = [Warning.interventionShorterThanBaseline i b] := by
  unfold powerWarning
  split_ifs <;> simp

theorem zeroVarianceWarning_cases (vb vi : ℚ) :
    zeroVarianceWarning vb vi = [] ∨
      zeroVarianceWarning vb vi = [Warning.zeroVariance] := by
  unfold zeroVarianceWarning
  split_ifs <;> simp

theorem tTestResult_warning_cases (vb vi md : ℚ) (ext : Option (ℚ × ℚ)) :
    (tTestResult vb vi md ext).2 = [] ∨
      (tTestResult vb vi md ext).2 = [Warning.tTestFailed] := by
  unfold tTestResult
  cases ext <;> split_ifs <;> simp

theorem mwuResult_warning_cases (ext : Option (ℚ × ℚ)) :
    (mwuResult ext).2 = [] ∨ (mwuResult ext).2 = [Warning.mannWhitneyFailed] := by
  unfold mwuResult
  cases ext <;> simp

/-- A window whose value list passes the gate is non-empty. -/
theorem window_ne_nil_of_gate {l : List Row}
    (h : MIN_DATA_POINTS ≤ (rowValues l).length) : l.isEmpty = false := by
  cases l with
  | nil => exact absurd h (by decide)
  | cons a t => rfl

/-- C7: on every successful analysis, the baseline (resp. intervention)
duration warning is present iff the window's calendar span
`(max_date - min_date) + 1` is below `MIN_BASELINE_DAYS` (resp.
`MIN_INTERVENTION_DAYS`); the span check is skipped outright for an empty
window. -/
theorem C7_span_warnings (m : Frame) (sd b i : ℤ) (tt mwu : ExtTest)
    (s : Success)
    (h : getOk (calculate_baseline_vs_intervention m sd b i tt mwu) = some s) :
    (s.warnings.any isBaselineDurationWarning = true ↔
      maxDateOf (baselineRows m sd b) - minDateOf (baselineRows m sd b) + 1
        < MIN_BASELINE_DAYS) ∧
    (s.warnings.any isInterventionDurationWarning = true ↔
      maxDateOf (interventionRows m sd i) - minDateOf (interventionRows m sd i)
        + 1 < MIN_INTERVENTION_DAYS) ∧
    baselineSpanWarning [] = [] ∧ interventionSpanWarning [] = [] := by
  obtain ⟨rfl, -, -, -, hbg, hig⟩ := getOk_calculate_inv h
  have hbne := window_ne_nil_of_gate hbg
  have hine := window_ne_nil_of_gate hig
  refine ⟨?_, ?_, rfl, rfl⟩
  · rw [buildSuccess_warnings]
    rcases interventionSpanWarning_cases (interventionRows m sd i) with hI | hI <;>
      rcases powerWarning_cases b i with hP | hP <;>
      rcases zeroVarianceWarning_cases
        (sampleVar (rowValues (baselineRows m sd b)))
        (sampleVar (rowValues (interventionRows m sd i))) with hZ | hZ <;>
      rcases tTestResult_warning_cases
        (sampleVar (rowValues (baselineRows m sd b)))
        (sampleVar (rowValues (interventionRows m sd i)))
        (mean (rowValues (interventionRows m sd i))
          - mean (rowValues (baselineRows m sd b)))
        (tt (rowValues (interventionRows m sd i))
          (rowValues (baselineRows m sd b))) with hT | hT <;>
      rcases mwuResult_warning_cases (mwu (rowValues (interventionRows m sd i))
        (rowValues (baselineRows m sd b))) with hU | hU <;>
      simp only [hI, hP, hZ, hT, hU, List.any_append, List.any_nil,
        List.any_cons, isBaselineDurationWarning, Bool.or_false, Bool.false_or,
        baselineSpanWarning_any, hbne, spanOf, eq_self_iff_true, true_and]
  · rw [buildSuccess_warnings]
    rcases baselineSpanWarning_cases (baselineRows m sd b) with hB | hB <;>
      rcases powerWarning_cases b i with hP | hP <;>
      rcases zeroVarianceWarning_cases
        (sampleVar (rowValues (baselineRows m sd b)))
        (sampleVar (rowValues (interventionRows m sd i))) with hZ | hZ <;>
      rcases tTestResult_warning_cases
        (sampleVar (rowValues (baselineRows m sd b)))
        (sampleVar (rowValues (interventionRows m sd i)))
        (mean (rowValues (interventionRows m sd i))
          - mean (rowValues (baselineRows m sd b)))
        (tt (rowValues (interventionRows m sd i))
          (rowValues (baselineRows m sd b))) with hT | hT <;>
      rcases mwuResult_warning_cases (mwu (rowValues (interventionRows m sd i))
        (rowValues (baselineRows m sd b))) with hU | hU <;>
      simp only [hB, hP, hZ, hT, hU, List.any_append, List.any_nil,
        List.any_cons, isInterventionDurationWarning, Bool.or_false,
        Bool.false_or, interventionSpanWarning_any, hine, spanOf,
        eq_self_iff_true, true_and]

/-- C7 witness: 7 consecutive daily baseline samples ending the day before
the start date fire no baseline-duration warning; 5 such samples do. -/
theorem C7_span_warnings_witness :
    ((getOk (calculate_baseline_vs_intervention daily7Frame 0 7 7 extConst
        extConst)).getD dummySuccess).warnings.any isBaselineDurationWarning
      = false ∧
    ((getOk (calculate_baseline_vs_intervention daily5Frame 0 7 7 extConst
        extConst)).getD dummySuccess).warnings.any isBaselineDurationWarning
      = true := by
  constructor
  · have h := (C7_span_warnings daily7Frame 0 7 7 extConst extConst _
      (some_getD_of_isSome dummySuccess (by decide))).1
    cases hb : ((getOk (calculate_baseline_vs_intervention daily7Frame 0 7 7
        extConst extConst)).getD dummySuccess).warnings.any
        isBaselineDurationWarning with
    | false => rfl
    | true => exact absurd (h.mp hb) (by decide)
  · exact (C7_span_warnings daily5Frame 0 7 7 extConst extConst _
      (some_getD_of_isSome dummySuccess (by decide))).1.mpr (by decide)

/-- Inverting a mixed-metric error: `calculate_baseline_vs_intervention`
returns the mixed-metric `ValueError` only when the frame has a `metric_name`
column with more than one distinct value. -/
theorem calculate_error_mixed_inv {m : Frame} {sd b i : ℤ} {tt mwu : ExtTest}
    {k : ℕ}
    (h : calculate_baseline_vs_intervention m sd b i tt mwu =
      .error (.mixedMetrics k)) :
    m.hasMetricCol = true ∧ 1 < uniqueMetricCount m := by
  unfold calculate_baseline_vs_intervention at h
  split_ifs at h with h1 h2 h3
  · simp at h
  · exact h2
  · simp at h
  · by_cases hg : (rowValues (baselineRows m sd b)).length < MIN_DATA_POINTS ∨
        (rowValues (interventionRows m sd i)).length < MIN_DATA_POINTS <;>
      simp [hg] at h

/-- A list all of whose elements are equal has at most one distinct value. -/
theorem dedup_length_le_one {l : List String} {a : String}
    (h : ∀ x ∈ l, x = a) : l.dedup.length ≤ 1 := by
  match hd : l.dedup with
  | [] => simp
  | [x] => simp
  | x :: y :: t =>
    exfalso
    have hnd := l.nodup_dedup
    rw [hd] at hnd
    have hx : x ∈ l.dedup := by rw [hd]; simp
    have hy : y ∈ l.dedup := by rw [hd]; simp
    rw [List.mem_dedup] at hx hy
    have hxy : x = y := (h x hx).trans (h y hy).symm
    rw [List.nodup_cons] at hnd
    exact hnd.1 (hxy ▸ List.mem_cons_self y t)

/-- After the coordinator's restriction, every row carries the metric being
analyzed. -/
theorem filterToMetric_rows {name : String} {df : Frame}
    (hc : df.hasMetricCol = true) :
    ∀ r ∈ (filterToMetric name df).rows, r.metric_name = name := by
  intro r hr
  unfold filterToMetric at hr
  rw [if_pos hc] at hr
  simp only [List.mem_filter, beq_iff_eq] at hr
  exact hr.2

/-- C8: the coordinator appends exactly one multiple-comparison warning iff
the metrics map holds more than `MAX_SAFE_METRICS` entries (and none
otherwise); each metric is analyzed independently of the others — its entry
is a function of its own frame alone — and an exception raised by one
metric's analysis is recorded as that metric's `{error}` entry while every
other metric still receives its own outcome. -/
theorem C8_multi_metric_isolation (mm : List (String × Frame)) (sd b i : ℤ)
    (tt mwu : ExtTest) :
    ((analyze_multiple_metrics mm sd b i tt mwu).global_warnings.countP
        isRiskWarning = if MAX_SAFE_METRICS < mm.length then 1 else 0) ∧
    ((analyze_multiple_metrics mm sd b i tt mwu).results =
      mm.map fun p => (p.1, perMetricEntry p.1 p.2 sd b i tt mwu)) ∧
    (∀ p ∈ mm, ∀ e : EngineError,
      calculate_baseline_vs_intervention (filterToMetric p.1 p.2) sd b i tt mwu
          = .error e →
        (p.1, Entry.err e) ∈ (analyze_multiple_metrics mm sd b i tt mwu).results) ∧
    (∀ p ∈ mm, ∀ o : Outcome,
      calculate_baseline_vs_intervention (filterToMetric p.1 p.2) sd b i tt mwu
          = .ok o →
        (p.1, Entry.res o) ∈ (analyze_multiple_metrics mm sd b i tt mwu).results) := by
  refine ⟨?_, rfl, ?_, ?_⟩
  · unfold analyze_multiple_metrics
    split_ifs with hlen <;> simp [isRiskWarning]
  · intro p hp e hcalc
    have hentry : perMetricEntry p.1 p.2 sd b i tt mwu = .err e := by
      unfold perMetricEntry
      rw [hcalc]
    exact List.mem_map.mpr ⟨p, hp, by rw [hentry]⟩
  · intro p hp o hcalc
    have hentry : perMetricEntry p.1 p.2 sd b i tt mwu = .res o := by
      unfold perMetricEntry
      rw [hcalc]
    exact List.mem_map.mpr ⟨p, hp, by rw [hentry]⟩

/-- C8 witness: 4 metrics yield exactly one multiple-comparison warning and 3
yield none; the broken metric's entry is its error record while a sibling
metric still gets its full result. -/
theorem C8_multi_metric_isolation_witness :
    ((analyze_multiple_metrics fourMetricsMap 0 3 3 extNone extNone).global_warnings.countP
        isRiskWarning = 1) ∧
    ((analyze_multiple_metrics threeMetricsMap 0 3 3 extNone extNone).global_warnings.countP
        isRiskWarning = 0) ∧
    ("Metric_1", Entry.err (.missingColumn "value")) ∈
      (analyze_multiple_metrics fourMetricsMap 0 3 3 extNone extNone).results ∧
    ("Metric_0", Entry.res (.ok (buildSuccess constFrame 0 3 3 extNone extNone))) ∈
      (analyze_multiple_metrics fourMetricsMap 0 3 3 extNone extNone).results :=
  ⟨(C8_multi_metric_isolation fourMetricsMap 0 3 3 extNone extNone).1.trans
      (by decide),
    (C8_multi_metric_isolation threeMetricsMap 0 3 3 extNone extNone).1.trans
      (by decide),
    (C8_multi_metric_isolation fourMetricsMap 0 3 3 extNone extNone).2.2.1
      ("Metric_1", noValueFrame) (by decide) (.missingColumn "value") rfl,
    (C8_multi_metric_isolation fourMetricsMap 0 3 3 extNone extNone).2.2.2
      ("Metric_0", constFrame) (by decide)
      (.ok (buildSuccess constFrame 0 3 3 extNone extNone)) rfl⟩

/-- C10: for every frame with a `metric_name` column the coordinator
restricts it to the rows of the metric being analyzed before invoking the
single-metric analysis — the restricted frame contains exactly the rows
tagged with that metric, the window selections draw only on such rows, and no
coordinator entry is ever the single-metric mixed-input error. -/
theorem C10_coordinator_prefilters (mm : List (String × Frame)) (sd b i : ℤ)
    (tt mwu : ExtTest) :
    (∀ name : String, ∀ df : Frame, df.hasMetricCol = true →
      (filterToMetric name df).rows
        = df.rows.filter (fun r => r.metric_name == name) ∧
      (∀ r ∈ baselineRows (filterToMetric name df) sd b, r.metric_name = name) ∧
      (∀ r ∈ interventionRows (filterToMetric name df) sd i,
        r.metric_name = name)) ∧
    (∀ q ∈ (analyze_multiple_metrics mm sd b i tt mwu).results,
      ∀ k : ℕ, q.2 ≠ Entry.err (.mixedMetrics k)) := by
  constructor
  · intro name df hc
    refine ⟨by unfold filterToMetric; rw [if_pos hc], ?_, ?_⟩
    · intro r hr
      unfold baselineRows at hr
      exact filterToMetric_rows hc r (List.mem_filter.mp hr).1
    · intro r hr
      unfold interventionRows at hr
      exact filterToMetric_rows hc r (List.mem_filter.mp hr).1
  · intro q hq k hmix
    unfold analyze_multiple_metrics at hq
    simp only [List.mem_map] at hq
    obtain ⟨p, hp, rfl⟩ := hq
    unfold perMetricEntry at hmix
    revert hmix
    split
    · intro hmix
      simp at hmix
    · rename_i e hcalc
      intro hmix
      simp only [Entry.err.injEq] at hmix
      subst hmix
      obtain ⟨hc, hcount⟩ := calculate_error_mixed_inv hcalc
      by_cases hdf : p.2.hasMetricCol = true
      · have hle := dedup_length_le_one
          (fun x hx => by
            obtain ⟨r, hr, rfl⟩ := List.mem_map.mp hx
            exact filterToMetric_rows hdf r hr)
          (l := ((filterToMetric p.1 p.2).rows.map Row.metric_name))
          (a := p.1)
        unfold uniqueMetricCount at hcount
        omega
      · unfold filterToMetric at hc
        rw [if_neg hdf] at hc
        exact hdf hc

/-- C10 witness: routing the mixed two-metric frame through the coordinator,
the restriction keeps exactly the matching row and the resulting entry is not
the mixed-input error. -/
theorem C10_coordinator_prefilters_witness :
    (filterToMetric "Metric A" mixedFrame).rows
      = [Row.mk (-1) (some 10) "Metric A"] ∧
    ("Metric A", perMetricEntry "Metric A" mixedFrame 0 1 1 extNone extNone).2
      ≠ Entry.err (.mixedMetrics 2) :=
  ⟨((C10_coordinator_prefilters [("Metric A", mixedFrame)] 0 1 1 extNone
      extNone).1 "Metric A" mixedFrame (by decide)).1.trans (by decide),
    (C10_coordinator_prefilters [("Metric A", mixedFrame)] 0 1 1 extNone
      extNone).2
      ("Metric A", perMetricEntry "Metric A" mixedFrame 0 1 1 extNone extNone)
      (by simp [analyze_multiple_metrics]) 2⟩

/-- C6: on every successful analysis the engine's `pooled_std` equals
`sqrt(((n1-1)*std1^2 + (n2-1)*std2^2) / (n1+n2-2))` when `n1+n2 > 2` and `0`
otherwise (with `std1`, `std2` the reported window standard deviations), and
`cohens_d` is `mean_difference / pooled_std` unless `pooled_std` is zero, in
which case it is exactly `0.0` regardless of `mean_difference`. -/
theorem C6_effect_size (m : Frame) (sd b i : ℤ) (tt mwu : ExtTest) (s : Success)
    (h : getOk (calculate_baseline_vs_intervention m sd b i tt mwu) = some s) :
    (s.pooled_std =
      if 2 < s.baseline_window.count + s.intervention_window.count then
        Real.sqrt
          ((((s.baseline_window.count : ℝ) - 1) * s.baseline_window.std ^ 2
            + ((s.intervention_window.count : ℝ) - 1)
              * s.intervention_window.std ^ 2)
            / ((s.baseline_window.count : ℝ)
              + (s.intervention_window.count : ℝ) - 2))
      else 0) ∧
    (s.pooled_std ≠ 0 →
      s.cohens_d = (s.analysis.mean_difference : ℝ) / s.pooled_std) ∧
    (s.pooled_std = 0 → s.cohens_d = 0) := by
  obtain ⟨rfl, -, -, -, hbg, hig⟩ := getOk_calculate_inv h
  have h3b : 3 ≤ (rowValues (baselineRows m sd b)).length := hbg
  have h3i : 3 ≤ (rowValues (interventionRows m sd i)).length := hig
  refine ⟨?_, ?_, ?_⟩
  · rw [Success.pooled_std, buildSuccess_pooled_sq,
      buildSuccess_baseline_window, buildSuccess_intervention_window]
    rw [if_pos (show (0 : ℤ) <
      ((rowValues (baselineRows m sd b)).length : ℤ)
        + ((rowValues (interventionRows m sd i)).length : ℤ) - 2 by omega)]
    simp only [WindowOut.std]
    rw [if_pos (by omega : 2 < (rowValues (baselineRows m sd b)).length
      + (rowValues (interventionRows m sd i)).length)]
    congr 1
    rw [Real.sq_sqrt (by exact_mod_cast sampleVar_nonneg _ : (0 : ℝ) ≤
        (sampleVar (rowValues (baselineRows m sd b)) : ℝ)),
      Real.sq_sqrt (by exact_mod_cast sampleVar_nonneg _ : (0 : ℝ) ≤
        (sampleVar (rowValues (interventionRows m sd i)) : ℝ))]
    push_cast
    ring
  · intro hp
    rw [Success.cohens_d, if_pos hp]
  · intro hp
    rw [Success.cohens_d, if_neg (by simp [hp])]

/-- C6 witness: for the constant-group input the pooled standard deviation is
zero, and `cohens_d` is exactly `0` even though the mean difference is `3`. -/
theorem C6_effect_size_witness :
    ((getOk (calculate_baseline_vs_intervention constFrame 0 3 3 extNone
        extNone)).getD dummySuccess).cohens_d = 0 ∧
    ((getOk (calculate_baseline_vs_intervention constFrame 0 3 3 extNone
        extNone)).getD dummySuccess).analysis.mean_difference = 3 := by
  have hpsq : ((getOk (calculate_baseline_vs_intervention constFrame 0 3 3
      extNone extNone)).getD dummySuccess).analysis.pooled_sq = 0 := by
    norm_num [calculate_baseline_vs_intervention, getOk, buildSuccess,
      baselineRows, interventionRows, rowValues, mean, sampleVar, constFrame,
      MIN_DATA_POINTS, List.filter_cons, List.filterMap_cons]
  have hps : ((getOk (calculate_baseline_vs_intervention constFrame 0 3 3
      extNone extNone)).getD dummySuccess).pooled_std = 0 := by
    rw [Success.pooled_std, hpsq, Rat.cast_zero, Real.sqrt_zero]
  refine ⟨(C6_effect_size constFrame 0 3 3 extNone extNone _
      (some_getD_of_isSome dummySuccess (by decide))).2.2 hps, ?_⟩
  norm_num [calculate_baseline_vs_intervention, getOk, buildSuccess,
    baselineRows, interventionRows, rowValues, mean, sampleVar, constFrame,
    MIN_DATA_POINTS, List.filter_cons, List.filterMap_cons]

/-! ### Percentile machinery for the bootstrap claim -/

theorem nthC_mono {s : List ℚ} (hs : s.Sorted (· ≤ ·)) {i j : ℕ} (hij : i ≤ j) :
    nthC s i ≤ nthC s j := by
  unfold nthC
  cases s with
  | nil => simp
  | cons a t =>
    have h1 : min i ((a :: t).length - 1) < (a :: t).length := by
      simp only [List.length_cons]
      omega
    have h2 : min j ((a :: t).length - 1) < (a :: t).length := by
      simp only [List.length_cons]
      omega
    rw [List.getD_eq_getElem _ _ h1, List.getD_eq_getElem _ _ h2]
    exact hs.rel_get_of_le (by simp only [Fin.mk_le_mk]; omega)

theorem fract_decomp {h : ℚ} (h0 : 0 ≤ h) :
    0 ≤ h - ((⌊h⌋).toNat : ℚ) ∧ h - ((⌊h⌋).toNat : ℚ) ≤ 1 := by
  have hfl : ((⌊h⌋).toNat : ℤ) = ⌊h⌋ := Int.toNat_of_nonneg (Int.floor_nonneg.mpr h0)
  have hcast : ((⌊h⌋).toNat : ℚ) = (⌊h⌋ : ℚ) := by exact_mod_cast congrArg (Int.cast : ℤ → ℚ) hfl
  rw [hcast]
  constructor
  · linarith [Int.floor_le h]
  · linarith [Int.lt_floor_add_one h]

theorem left_le_interpAt {s : List ℚ} (hs : s.Sorted (· ≤ ·)) {h : ℚ}
    (h0 : 0 ≤ h) : nthC s ((⌊h⌋).toNat) ≤ interpAt s h := by
  obtain ⟨hf0, hf1⟩ := fract_decomp h0
  have hab : nthC s ((⌊h⌋).toNat) ≤ nthC s ((⌊h⌋).toNat + 1) :=
    nthC_mono hs (Nat.le_succ _)
  unfold interpAt
  nlinarith

theorem interpAt_le_right {s : List ℚ} (hs : s.Sorted (· ≤ ·)) {h : ℚ}
    (h0 : 0 ≤ h) : interpAt s h ≤ nthC s ((⌊h⌋).toNat + 1) := by
  obtain ⟨hf0, hf1⟩ := fract_decomp h0
  have hab : nthC s ((⌊h⌋).toNat) ≤ nthC s ((⌊h⌋).toNat + 1) :=
    nthC_mono hs (Nat.le_succ _)
  unfold interpAt
  nlinarith

theorem interpAt_mono {s : List ℚ} (hs : s.Sorted (· ≤ ·)) {h1 h2 : ℚ}
    (h0 : 0 ≤ h1) (h12 : h1 ≤ h2) : interpAt s h1 ≤ interpAt s h2 := by
  have h0' : 0 ≤ h2 := le_trans h0 h12
  have hi : (⌊h1⌋).toNat ≤ (⌊h2⌋).toNat := Int.toNat_le_toNat (Int.floor_mono h12)
  rcases Nat.lt_or_ge ((⌊h1⌋).toNat) ((⌊h2⌋).toNat) with hlt | hge
  · calc interpAt s h1 ≤ nthC s ((⌊h1⌋).toNat + 1) := interpAt_le_right hs h0
      _ ≤ nthC s ((⌊h2⌋).toNat) := nthC_mono hs hlt
      _ ≤ interpAt s h2 := left_le_interpAt hs h0'
  · have heq : (⌊h1⌋).toNat = (⌊h2⌋).toNat := le_antisymm hi hge
    obtain ⟨hf0, -⟩ := fract_decomp h0
    have hab : nthC s ((⌊h1⌋).toNat) ≤ nthC s ((⌊h1⌋).toNat + 1) :=
      nthC_mono hs (Nat.le_succ _)
    unfold interpAt
    rw [← heq]
    nlinarith

theorem percentile_mono (xs : List ℚ) {q1 q2 : ℚ} (h0 : 0 ≤ q1)
    (h12 : q1 ≤ q2) : percentile q1 xs ≤ percentile q2 xs := by
  unfold percentile
  split_ifs with hemp
  · exact le_refl 0
  · have hs : (xs.insertionSort (· ≤ ·)).Sorted (· ≤ ·) :=
      List.sorted_insertionSort (· ≤ ·) xs
    have hn : 1 ≤ xs.length := by
      cases xs with
      | nil => simp at hemp
      | cons a t => simp
    have hden : (0 : ℚ) ≤ ((xs.length : ℚ) - 1) / 100 := by
      have : (1 : ℚ) ≤ (xs.length : ℚ) := by exact_mod_cast hn
      exact div_nonneg (by linarith) (by norm_num)
    have e1 : q1 * ((xs.length : ℚ) - 1) / 100 = q1 * (((xs.length : ℚ) - 1) / 100) := by ring
    have e2 : q2 * ((xs.length : ℚ) - 1) / 100 = q2 * (((xs.length : ℚ) - 1) / 100) := by ring
    refine interpAt_mono hs ?_ ?_
    · rw [e1]
      exact mul_nonneg h0 hden
    · rw [e1, e2]
      exact mul_le_mul_of_nonneg_right h12 hden

/-- Inverting a successful main-branch engine call. -/
theorem getFullOk_inv {m : Frame} {sd b i : ℤ} {tt mwu : ExtTest} {nB : ℕ}
    {rng : ℕ → ℕ → ℕ → ℕ} {sig : List (ℤ × ℚ) → ℚ} {f : FullSuccess}
    (h : getFullOk (full_calculate m sd b i tt mwu nB rng sig) = some f) :
    f.core = buildSuccess m sd b i tt mwu ∧
    f.baseline_trend = calculate_trend (pairsOf (baselineRows m sd b)) sig ∧
    f.intervention_trend = calculate_trend (pairsOf (interventionRows m sd i)) sig ∧
    f.bootstrap_ci = bootstrap_ci (rowValues (baselineRows m sd b))
      (rowValues (interventionRows m sd i)) nB rng ∧
    MIN_DATA_POINTS ≤ (rowValues (baselineRows m sd b)).length ∧
    MIN_DATA_POINTS ≤ (rowValues (interventionRows m sd i)).length := by
  unfold full_calculate getFullOk at h
  cases hc : calculate_baseline_vs_intervention m sd b i tt mwu with
  | error e =>
    rw [hc] at h
    simp at h
  | ok o =>
    cases o with
    | insufficient bc ic =>
      rw [hc] at h
      simp at h
    | ok s' =>
      rw [hc] at h
      simp only [Option.some.injEq] at h
      have hg : getOk (calculate_baseline_vs_intervention m sd b i tt mwu)
          = some s' := by
        unfold getOk
        rw [hc]
      have hinv := getOk_calculate_inv hg
      subst h
      exact ⟨hinv.1, rfl, rfl, rfl, hinv.2.2.2.2.1, hinv.2.2.2.2.2⟩

/-- C1: on every successful single-metric analysis of the main-branch engine
(whose windows are non-empty, as they pass the data gate) the result carries
`bootstrap_ci` with `lower`/`upper` equal to the 2.5th/97.5th percentiles of
the distribution of mean differences over repeated same-size resamples drawn
with replacement independently from each group, and `lower ≤ upper`; the
interval is absent exactly when one of the groups is empty. -/
theorem C1_bootstrap_ci (m : Frame) (sd b i : ℤ) (tt mwu : ExtTest) (nB : ℕ)
    (rng : ℕ → ℕ → ℕ → ℕ) (sig : List (ℤ × ℚ) → ℚ) (f : FullSuccess)
    (h : getFullOk (full_calculate m sd b i tt mwu nB rng sig) = some f) :
    (f.bootstrap_ci = some
      ⟨percentile (5 / 2) (bootDiffs (rowValues (baselineRows m sd b))
          (rowValues (interventionRows m sd i)) nB rng),
        percentile (195 / 2) (bootDiffs (rowValues (baselineRows m sd b))
          (rowValues (interventionRows m sd i)) nB rng)⟩) ∧
    (∀ ci : CIOut, f.bootstrap_ci = some ci → ci.lower ≤ ci.upper) ∧
    (∀ g1 g2 : List ℚ, bootstrap_ci g1 g2 nB rng = none ↔ (g1 = [] ∨ g2 = [])) := by
  obtain ⟨-, -, -, hci, hbg, hig⟩ := getFullOk_inv h
  have hpres : f.bootstrap_ci = some
      ⟨percentile (5 / 2) (bootDiffs (rowValues (baselineRows m sd b))
          (rowValues (interventionRows m sd i)) nB rng),
        percentile (195 / 2) (bootDiffs (rowValues (baselineRows m sd b))
          (rowValues (interventionRows m sd i)) nB rng)⟩ := by
    rw [hci]
    unfold bootstrap_ci
    rw [if_neg]
    intro hemp
    have hbg' : 3 ≤ (rowValues (baselineRows m sd b)).length := hbg
    have hig' : 3 ≤ (rowValues (interventionRows m sd i)).length := hig
    rcases hemp with hemp | hemp <;> omega
  refine ⟨hpres, ?_, ?_⟩
  · intro ci hci'
    rw [hpres] at hci'
    simp only [Option.some.injEq] at hci'
    subst hci'
    exact percentile_mono _ (by norm_num) (by norm_num)
  · intro g1 g2
    unfold bootstrap_ci
    split_ifs with hemp
    · simp only [true_iff]
      rcases hemp with hemp | hemp
      · exact Or.inl (List.length_eq_zero.mp hemp)
      · exact Or.inr (List.length_eq_zero.mp hemp)
    · simp only [false_iff]
      intro hcon
      rcases hcon with rfl | rfl <;> simp at hemp

/-- C1 witness: at a concrete successful analysis with 2 resamples and an
explicit generator, the interval is present with the two percentile bounds in
order, and the component interval is absent exactly on an empty group. -/
theorem C1_bootstrap_ci_witness :
    ((getFullOk (full_calculate constFrame 0 3 3 extNone extNone 2 rngId
        sigConst)).getD dummyFullSuccess).bootstrap_ci = some
      ⟨percentile (5 / 2) (bootDiffs (rowValues (baselineRows constFrame 0 3))
          (rowValues (interventionRows constFrame 0 3)) 2 rngId),
        percentile (195 / 2) (bootDiffs (rowValues (baselineRows constFrame 0 3))
          (rowValues (interventionRows constFrame 0 3)) 2 rngId)⟩ ∧
    (bootstrap_ci [] [1] 2 rngId = none ↔ (([] : List ℚ) = [] ∨ [(1 : ℚ)] = [])) :=
  ⟨(C1_bootstrap_ci constFrame 0 3 3 extNone extNone 2 rngId sigConst _
      (some_getD_of_isSome dummyFullSuccess (by decide))).1,
    (C1_bootstrap_ci constFrame 0 3 3 extNone extNone 2 rngId sigConst _
      (some_getD_of_isSome dummyFullSuccess (by decide))).2.2 [] [1]⟩

/-- C2: every window of a successful main-branch analysis carries the trend
computed by `calculate_trend` on its `(date, value)` points, and
`calculate_trend` itself returns the OLS slope with an attempted significance
test for at least 2 points at more than one time point, a zero slope with no
significance test when all values are identical, and nothing at all for fewer
than 2 points or a single shared timestamp. -/
theorem C2_trend (m : Frame) (sd b i : ℤ) (tt mwu : ExtTest) (nB : ℕ)
    (rng : ℕ → ℕ → ℕ → ℕ) (sig : List (ℤ × ℚ) → ℚ) (f : FullSuccess)
    (h : getFullOk (full_calculate m sd b i tt mwu nB rng sig) = some f) :
    (f.baseline_trend = calculate_trend (pairsOf (baselineRows m sd b)) sig) ∧
    (f.intervention_trend
      = calculate_trend (pairsOf (interventionRows m sd i)) sig) ∧
    (∀ pts : List (ℤ × ℚ),
      pts.length < 2 ∨ allEqList (pts.map Prod.fst) = true →
        calculate_trend pts sig = none) ∧
    (∀ pts : List (ℤ × ℚ), 2 ≤ pts.length →
      allEqList (pts.map Prod.fst) = false →
      allEqList (pts.map Prod.snd) = true →
        calculate_trend pts sig = some ⟨0, none⟩) ∧
    (∀ pts : List (ℤ × ℚ), 2 ≤ pts.length →
      allEqList (pts.map Prod.fst) = false →
      allEqList (pts.map Prod.snd) = false →
        calculate_trend pts sig = some ⟨olsSlope pts, some (sig pts)⟩) := by
  obtain ⟨-, hbt, hit, -, -, -⟩ := getFullOk_inv h
  refine ⟨hbt, hit, ?_, ?_, ?_⟩
  · intro pts hdeg
    unfold calculate_trend
    rw [if_pos hdeg]
  · intro pts hlen hx hy
    unfold calculate_trend
    rw [if_neg (by simp [hx]; omega), if_pos hy]
  · intro pts hlen hx hy
    unfold calculate_trend
    rw [if_neg (by simp [hx]; omega), if_neg (by simp [hy])]

/-- C2 witness: the concrete analysis carries `calculate_trend` of its
baseline points, and the three `calculate_trend` regimes at concrete point
lists — two points on one timestamp (absent), a flat pair (slope 0, no
test), and a rising pair (OLS slope with the external p-value). -/
theorem C2_trend_witness :
    ((getFullOk (full_calculate constFrame 0 3 3 extNone extNone 2 rngId
        sigConst)).getD dummyFullSuccess).baseline_trend
      = calculate_trend (pairsOf (baselineRows constFrame 0 3)) sigConst ∧
    calculate_trend [((0 : ℤ), (1 : ℚ)), ((0 : ℤ), (2 : ℚ))] sigConst = none ∧
    calculate_trend [((0 : ℤ), (1 : ℚ)), ((1 : ℤ), (1 : ℚ))] sigConst
      = some ⟨0, none⟩ ∧
    calculate_trend [((0 : ℤ), (1 : ℚ)), ((1 : ℤ), (2 : ℚ))] sigConst
      = some ⟨olsSlope [((0 : ℤ), (1 : ℚ)), ((1 : ℤ), (2 : ℚ))],
          some (sigConst [((0 : ℤ), (1 : ℚ)), ((1 : ℤ), (2 : ℚ))])⟩ :=
  ⟨(C2_trend constFrame 0 3 3 extNone extNone 2 rngId sigConst _
      (some_getD_of_isSome dummyFullSuccess (by decide))).1,
    (C2_trend constFrame 0 3 3 extNone extNone 2 rngId sigConst _
      (some_getD_of_isSome dummyFullSuccess (by decide))).2.2.1
      [((0 : ℤ), (1 : ℚ)), ((0 : ℤ), (2 : ℚ))] (by decide),
    (C2_trend constFrame 0 3 3 extNone extNone 2 rngId sigConst _
      (some_getD_of_isSome dummyFullSuccess (by decide))).2.2.2.1
      [((0 : ℤ), (1 : ℚ)), ((1 : ℤ), (1 : ℚ))] (by decide) (by decide)
      (by decide),
    (C2_trend constFrame 0 3 3 extNone extNone 2 rngId sigConst _
      (some_getD_of_isSome dummyFullSuccess (by decide))).2.2.2.2
      [((0 : ℤ), (1 : ℚ)), ((1 : ℤ), (2 : ℚ))] (by decide) (by decide)
      (by decide)⟩

end N1
